import Mathlib

/-!
Verification of the session-scoped ephemeral state bridge implemented by the
repository's four hook scripts:

* Snapshot Writer  — `statusline-bridge.js` (`writeBridgeFile`, `renderStatusLine`)
* Snapshot Reader  — `inject-context-on-prompt.cjs` (`buildContextMessage`)
* Event Counter    — `inject-context-on-tool.js` (stdin end handler)
* Session Reaper   — `session-cleanup.js` / `session-cleanup.cjs`

The scripts are short-lived Node processes coordinating through files in the
OS temp directory.  The shallow embedding models that directory as an
association list from file names to file contents, each component as a pure
function from its parsed stdin event (`none` models stdin that fails
`JSON.parse`) and the current directory state to the new state plus its
stdout, and JavaScript numbers as rationals.  Environment effects the
scripts consume (the current instant for `new Date().toISOString()`, the
result of the best-effort `git branch --show-current` call, and whether an
`fs.unlinkSync` call succeeds) are passed in as explicit parameters.
-/

/-- Model of the JavaScript expression `o || d` for an optional string field:
`undefined`, `null` and the empty string are falsy, any other string is
returned unchanged. -/
def orFalsy (o : Option String) (d : String) : String :=
  match o with
  | none => d
  | some s => if s = "" then d else s

/-- Model of the JavaScript expression `o || d` for an optional numeric field:
`undefined`, `null` and `0` are falsy.  (`NaN`, also falsy, is outside the
rational model.) -/
def orFalsyQ (o : Option ℚ) (d : ℚ) : ℚ :=
  match o with
  | none => d
  | some x => if x = 0 then d else x

/-- Model of JavaScript `Math.round q`, i.e. the floor of `q + 1/2`, computed
directly on the numerator and denominator so that it evaluates by kernel
reduction: `⌊q + 1/2⌋ = ⌊(2·num + den) / (2·den)⌋` and the floor of a
fraction with positive denominator is `Int.fdiv`. -/
def jsRound (q : ℚ) : Int :=
  (2 * q.num + (q.den : Int)).fdiv (2 * (q.den : Int))

/-- Exact division of a rational by 1000, used for the `window_size / 1000`
expressions in the scripts; written via `mkRat` (rather than `Rat.div`) so
that it evaluates by kernel reduction. -/
def divByThousand (q : ℚ) : ℚ :=
  mkRat q.num (q.den * 1000)

/-- Smallest exponent `k ≤ 20` with `den ∣ 10 ^ k`, if any: the number of
decimal digits needed to print a reduced fraction with denominator `den`
exactly. -/
def decExpOf (den : Nat) : Option Nat :=
  (List.range 21).find? (fun k => 10 ^ k % den = 0)

/-- Decimal rendering of a rational, modelling JavaScript number-to-string
conversion for the terminating decimals this system handles (integers print
with no point, e.g. `0.47` prints as "0.47").  Values whose denominator is
not a divisor of a power of ten do not arise from the scripts' inputs; they
fall back to a fraction rendering. -/
def fmtQ (q : ℚ) : String :=
  if q.den = 1 then toString q.num
  else
    match decExpOf q.den with
    | some k =>
      let scaled : Int := (q.num * (10 : Int) ^ k).fdiv (q.den : Int)
      let sign := if scaled < 0 then "-" else ""
      let ds := (toString scaled.natAbs).data
      let ds := if ds.length ≤ k then List.replicate (k + 1 - ds.length) '0' ++ ds else ds
      sign ++ String.mk (ds.take (ds.length - k)) ++ "." ++ String.mk (ds.drop (ds.length - k))
    | none => toString q.num ++ "/" ++ toString q.den

/-- Digit run at the head of a character list, as a natural number; `none`
when there is no leading digit. -/
def parseDigits (cs : List Char) : Option Nat :=
  let ds := cs.takeWhile Char.isDigit
  if ds.isEmpty then none
  else some (ds.foldl (fun a c => a * 10 + (c.toNat - 48)) 0)

/-- Model of JavaScript `parseInt(s, 10)`: skip leading whitespace, accept an
optional sign, read a maximal run of decimal digits and ignore everything
after it; `none` models the `NaN` result when no digit is found. -/
def parseIntJS (s : String) : Option Int :=
  let cs := s.data.dropWhile (fun c => c == ' ' || c == '\t' || c == '\n' || c == '\r')
  match cs with
  | '-' :: rest => (parseDigits rest).map (fun n => -(n : Int))
  | '+' :: rest => (parseDigits rest).map (fun n => (n : Int))
  | _ => (parseDigits cs).map (fun n => (n : Int))

/-- Model of JavaScript `Array.prototype.join(sep)`. -/
def joinSep (sep : String) : List String → String
  | [] => ""
  | [x] => x
  | x :: xs => x ++ sep ++ joinSep sep xs

/-- Model of JavaScript `String.prototype.startsWith`, phrased on the
character data so that it evaluates by kernel reduction. -/
def strStarts (pre s : String) : Bool :=
  s.data.take pre.data.length == pre.data

/-- Model of Node's POSIX `path.basename`: the last nonempty
slash-separated component of the path. -/
def basename (p : String) : String :=
  match ((p.splitOn "/").filter (fun s => s != "")).getLast? with
  | some s => s
  | none => ""

/-- Snapshot Record as serialised by `writeBridgeFile` and re-parsed by the
readers: one optional field per JSON key, `none` modelling an absent field
(the readers apply `?? default` to each). -/
structure BridgeData where
  session_id : Option String
  used_pct : Option ℚ
  remaining_pct : Option ℚ
  window_size : Option ℚ
  input_tokens : Option ℚ
  output_tokens : Option ℚ
  model : Option String
  cost_usd : Option ℚ
  timestamp : Option String
deriving DecidableEq

/-- Contents of one file in the temp directory.  `text` is raw text (the
counter files hold a decimal string); `json` is a successfully parsed
bridge-file object, with `text` at a bridge path modelling contents that
`JSON.parse` rejects. -/
inductive FileContent where
  | text (s : String)
  | json (b : BridgeData)
deriving DecidableEq

/-- The shared temp-directory namespace: file name to contents.  Every
operation the scripts perform on it depends only on the file name, so an
association list with first-match lookup is an adequate model. -/
abbrev FS := List (String × FileContent)

/-- Model of `fs.readFileSync`: the contents at the first entry with the
given name, `none` when the file does not exist (the scripts catch the
exception this raises). -/
def fsRead : FS → String → Option FileContent
  | [], _ => none
  | e :: rest, name => if e.1 = name then some e.2 else fsRead rest name

/-- Model of `fs.writeFileSync`: a whole-file overwrite, replacing any
previous entry with the same name. -/
def fsWrite (fs : FS) (name : String) (c : FileContent) : FS :=
  (name, c) :: fs.filter (fun e => e.1 != name)

/-- Model of `fs.unlinkSync`: remove the entry with the given name; on a
missing file this is a no-op (the scripts catch the ENOENT exception). -/
def fsDelete (fs : FS) (name : String) : FS :=
  fs.filter (fun e => e.1 != name)

/-- Model of `try { fs.unlinkSync(name) } catch {}` under an environment
`ok` telling which deletions succeed: a failed deletion leaves the file in
place and the script continues. -/
def fsTryDelete (fs : FS) (ok : String → Bool) (name : String) : FS :=
  if ok name then fsDelete fs name else fs

/-- Nested `context_window` block of the status-line event. -/
structure ContextWindow where
  used_percentage : Option ℚ
  remaining_percentage : Option ℚ
  context_window_size : Option ℚ
  total_input_tokens : Option ℚ
  total_output_tokens : Option ℚ
deriving DecidableEq

/-- The `{}` object used by `data.context_window || {}`. -/
def emptyCtx : ContextWindow :=
  ⟨none, none, none, none, none⟩

/-- Status-line event consumed by `statusline-bridge.js`.
`model_display_name` models the JavaScript chain
`data.model && data.model.display_name` and `cost_total_usd` models
`data.cost && data.cost.total_cost_usd`, collapsed to one optional field. -/
structure StatusEvent where
  session_id : Option String
  context_window : Option ContextWindow
  model_display_name : Option String
  cost_total_usd : Option ℚ
  cwd : Option String
deriving DecidableEq

/-- Hook event consumed by `inject-context-on-tool.js`. -/
structure ToolEvent where
  session_id : Option String
  tool_name : Option String
deriving DecidableEq

/-- Hook event consumed by `inject-context-on-prompt.cjs`. -/
structure PromptEvent where
  session_id : Option String
deriving DecidableEq

/-- Hook event consumed by the two `session-cleanup` scripts. -/
structure CleanupEvent where
  session_id : Option String
deriving DecidableEq

/-- Bridge-file path for a session key, from `bridgePath` in
`statusline-bridge.js` (the common temp-directory root is dropped from the
model since every path lives in it). -/
def bridgeFileName (sessionId : String) : String :=
  "claude-context-usage-" ++ sessionId ++ ".json"

/-- Counter-file path for a session key, from `inject-context-on-tool.js`. -/
def counterFileName (sessionId : String) : String :=
  "claude-tool-counter-" ++ sessionId

/-- Snapshot Writer core, from `writeBridgeFile` in `statusline-bridge.js`:
no write at all when `session_id` is falsy, otherwise a whole-record
overwrite with explicit defaults for every absent field and `now` standing
for `new Date().toISOString()`. -/
def writeBridgeFile (data : StatusEvent) (now : String) (fs : FS) : FS :=
  match data.session_id with
  | none => fs
  | some sessionId =>
    if sessionId = "" then fs
    else
      let ctx := data.context_window.getD emptyCtx
      let bridge : BridgeData :=
        { session_id := some sessionId
          used_pct := some (ctx.used_percentage.getD 0)
          remaining_pct := some (ctx.remaining_percentage.getD 100)
          window_size := some (ctx.context_window_size.getD 200000)
          input_tokens := some (ctx.total_input_tokens.getD 0)
          output_tokens := some (ctx.total_output_tokens.getD 0)
          model := some (orFalsy data.model_display_name "Claude")
          cost_usd := some (orFalsyQ data.cost_total_usd 0)
          timestamp := some now }
      fsWrite fs (bridgeFileName sessionId) (FileContent.json bridge)

/-- ANSI escape constants of `renderStatusLine`. -/
def GRAY : String := "\x1b[38;5;250m"

/-- Dim ANSI attribute. -/
def DIM : String := "\x1b[2m"

/-- Bold ANSI attribute. -/
def BOLD : String := "\x1b[1m"

/-- Reset ANSI attribute. -/
def RST : String := "\x1b[0m"

/-- Separator between status-line parts. -/
def SEP : String := GRAY ++ DIM ++ " | " ++ RST

/-- Colour gradient of `renderStatusLine`. -/
def ctxColor (pct : Int) : String :=
  if pct ≥ 80 then "\x1b[38;2;255;80;50m"
  else if pct ≥ 50 then "\x1b[38;2;255;230;50m"
  else "\x1b[38;2;100;230;100m"

/-- Status-line rendering from `statusline-bridge.js`; `branch` stands for
the result of the best-effort `git branch --show-current` call (empty when
git fails, exactly the caught-exception path of the script). -/
def renderStatusLine (data : StatusEvent) (branch : String) : String :=
  let ctx := data.context_window.getD emptyCtx
  let pct := jsRound (ctx.used_percentage.getD 0)
  let model := orFalsy data.model_display_name "Claude"
  let cost := orFalsyQ data.cost_total_usd 0
  let cwd := orFalsy data.cwd ""
  let dir := if cwd != "" then basename cwd else ""
  let parts :=
    (if dir != "" then [GRAY ++ DIM ++ dir ++ RST] else [])
      ++ [GRAY ++ DIM ++ model ++ RST]
      ++ (if branch != "" then [GRAY ++ DIM ++ branch ++ RST] else [])
      ++ [GRAY ++ DIM ++ "ctx " ++ RST ++ ctxColor pct ++ BOLD ++ toString pct ++ "%" ++ RST]
      ++ [GRAY ++ DIM ++ "$" ++ fmtQ cost ++ RST]
  joinSep SEP parts

/-- Result of one Snapshot Writer invocation: the new directory state and
the stdout text. -/
structure WriterResult where
  fs : FS
  stdout : String
deriving DecidableEq

/-- One invocation of `statusline-bridge.js`.  `none` input models stdin
that fails `JSON.parse`, on which the script prints a fixed fallback status
line and touches nothing. -/
def runStatusline (input : Option StatusEvent) (now branch : String) (fs : FS) : WriterResult :=
  match input with
  | none => ⟨fs, "\x1b[38;5;250m\x1b[2mClaude\x1b[0m"⟩
  | some data => ⟨writeBridgeFile data now fs, renderStatusLine data branch⟩

/-- Severity line of `buildContextMessage` in `inject-context-on-prompt.cjs`,
factored out of the if/else chain on the rounded used percentage. -/
def readerSeverity (pct : Int) : String :=
  if pct ≥ 80 then "CRITICAL — suggest /compact now"
  else if pct ≥ 60 then "WARNING — be concise, avoid verbose output"
  else if pct ≥ 40 then "MODERATE"
  else "OK"

/-- Snapshot Reader core, from `buildContextMessage` in
`inject-context-on-prompt.cjs`.  A `text` entry at the bridge path models a
bridge file that `JSON.parse` rejects, which the script treats like a
missing file. -/
def buildContextMessage (sessionId : String) (fs : FS) : String :=
  if sessionId = "" then "[Context tracking: no session_id available]"
  else
    match fsRead fs (bridgeFileName sessionId) with
    | none => "[Context tracking: awaiting first status update]"
    | some (FileContent.text _) => "[Context tracking: awaiting first status update]"
    | some (FileContent.json data) =>
      let pct := jsRound (data.used_pct.getD 0)
      let rem := jsRound (data.remaining_pct.getD 100)
      let winK := jsRound (divByThousand (data.window_size.getD 200000))
      let inTok := data.input_tokens.getD 0
      let outTok := data.output_tokens.getD 0
      let sev := readerSeverity pct
      ("[CONTEXT " ++ sev ++ "] ")
        ++ (toString pct ++ "% used (" ++ toString rem ++ "% free) of "
             ++ toString winK ++ "k window | ")
        ++ ("~" ++ fmtQ inTok ++ " in / ~" ++ fmtQ outTok ++ " out")

/-- One invocation of `inject-context-on-prompt.cjs`, returning the
`additionalContext` message it wraps into its JSON output.  Malformed stdin
leaves `hookData` as the empty object. -/
def runPromptReader (input : Option PromptEvent) (fs : FS) : String :=
  let hookData := input.getD ⟨none⟩
  let sessionId := orFalsy hookData.session_id ""
  buildContextMessage sessionId fs

/-- Sampling interval of `inject-context-on-tool.js`. -/
def EVERY_N : Int := 5

/-- Icon of the Event Counter's message, factored out of its if/else chain
on the rounded used percentage. -/
def counterIcon (pct : Int) : String :=
  if pct ≥ 80 then "🔴"
  else if pct ≥ 60 then "🟡"
  else "🟢"

/-- Advice suffix of the Event Counter's message, factored out of the same
if/else chain (`""` means no advice is appended). -/
def counterAdvice (pct : Int) : String :=
  if pct ≥ 80 then "Context nearly full — run /compact or wrap up this task."
  else if pct ≥ 60 then "Context above 60% — keep responses concise."
  else ""

/-- Counter-file read of `inject-context-on-tool.js`:
`parseInt(fs.readFileSync(counterFile, "utf8"), 10) || 0` with the read
exception caught.  A `json` entry is raw text starting with a brace, on
which `parseInt` yields `NaN`, hence 0. -/
def readCounterValue (fs : FS) (name : String) : Int :=
  match fsRead fs name with
  | none => 0
  | some (FileContent.text s) => (parseIntJS s).getD 0
  | some (FileContent.json _) => 0

/-- Result of one Event Counter invocation: the new directory state and the
`additionalContext` message, `none` when the process exits with empty
output. -/
structure CounterResult where
  fs : FS
  output : Option String
deriving DecidableEq

/-- One invocation of `inject-context-on-tool.js`.  On stdin that fails
`JSON.parse` the script calls `process.exit(0)` before touching anything.
Otherwise it increments and persists the per-session counter
unconditionally, then emits a message only on every `EVERY_N`-th call and
only when the session's bridge file exists and parses.  `Int.tmod` is the
truncated remainder, matching the JavaScript `%` operator. -/
def runCounter (input : Option ToolEvent) (fs : FS) : CounterResult :=
  match input with
  | none => ⟨fs, none⟩
  | some hookData =>
    let sessionId := orFalsy hookData.session_id "default"
    let toolName := orFalsy hookData.tool_name "unknown"
    let counterFile := counterFileName sessionId
    let bridgeFile := bridgeFileName sessionId
    let count := readCounterValue fs counterFile + 1
    let fs1 := fsWrite fs counterFile (FileContent.text (toString count))
    if count.tmod EVERY_N ≠ 0 then ⟨fs1, none⟩
    else
      match fsRead fs1 bridgeFile with
      | none => ⟨fs1, none⟩
      | some (FileContent.text _) => ⟨fs1, none⟩
      | some (FileContent.json data) =>
        let pct := jsRound (data.used_pct.getD 0)
        let rem := jsRound (data.remaining_pct.getD 100)
        let winK := jsRound (divByThousand (data.window_size.getD 200000))
        let icon := counterIcon pct
        let advice := counterAdvice pct
        let msg :=
          (icon ++ " Context checkpoint (#" ++ toString count ++ ", after "
            ++ toolName ++ "): ")
            ++ (toString pct ++ "% used, " ++ toString rem ++ "% free of "
                 ++ toString winK ++ "k")
        let msg := if advice ≠ "" then msg ++ ". " ++ advice else msg
        ⟨fs1, some msg⟩

/-- Naming convention matched by the fallback sweep of
`session-cleanup.js`. -/
def matchesRecordName (f : String) : Bool :=
  strStarts "claude-context-usage-" f || strStarts "claude-tool-counter-" f

/-- One invocation of `session-cleanup.js` under a deletion environment
`ok`.  With a truthy session id it unlinks that session's two files, each
deletion failure caught independently; otherwise it sweeps every file
matching the record naming convention, each deletion failure caught
independently so the loop continues. -/
def runCleanupJs (input : Option CleanupEvent) (ok : String → Bool) (fs : FS) : FS :=
  let sessionId :=
    match input with
    | none => ""
    | some d => orFalsy d.session_id ""
  if sessionId = "" then
    fs.filter (fun e => !(matchesRecordName e.1 && ok e.1))
  else
    fsTryDelete (fsTryDelete fs ok (bridgeFileName sessionId)) ok (counterFileName sessionId)

/-- One invocation of `session-cleanup.cjs`: identical to the `.js` variant
for a truthy session id, but with no fallback sweep (it returns having done
nothing when the id is falsy). -/
def runCleanupCjs (input : Option CleanupEvent) (ok : String → Bool) (fs : FS) : FS :=
  let sessionId :=
    match input with
    | none => ""
    | some d => orFalsy d.session_id ""
  if sessionId = "" then fs
  else
    fsTryDelete (fsTryDelete fs ok (bridgeFileName sessionId)) ok (counterFileName sessionId)

/-- Bridge record with every field absent, for concrete test states. -/
def emptyBridge : BridgeData :=
  ⟨none, none, none, none, none, none, none, none, none⟩

/-- Bridge record whose stored usage is exactly 80, for concrete test
states. -/
def bridge80 : BridgeData :=
  { emptyBridge with used_pct := some 80 }

/-- The status-line event of the end-to-end scenario (`0.47` is the
rational `47/100`). -/
def c1Event : StatusEvent :=
  ⟨some "s1", some ⟨some 42, some 58, some 200000, some 84000, some 12000⟩,
   some "Opus", some (mkRat 47 100), none⟩

/-- Status-line event carrying `used_percentage = 42`. -/
def ev42 : StatusEvent :=
  ⟨some "s1", some ⟨some 42, some 58, none, none, none⟩, none, none, none⟩

/-- Status-line event carrying `used_percentage = 79.6` (the rational
`398/5`) and `remaining_percentage = 20.4`. -/
def ev796 : StatusEvent :=
  ⟨some "s1", some ⟨some (mkRat 398 5), some (mkRat 102 5), none, none, none⟩,
   none, none, none⟩

/-- Concrete temp directory holding session `s1`'s counter at 4 and its
bridge record. -/
def fsC2 : FS :=
  [("claude-tool-counter-s1", FileContent.text "4"),
   ("claude-context-usage-s1.json", FileContent.json emptyBridge)]

/-- Concrete temp directory holding a bridge record for `s1` whose usage
is 80. -/
def fsC3 : FS :=
  [("claude-context-usage-s1.json", FileContent.json bridge80)]

/-- Concrete temp directory holding records for two sessions plus an
unrelated file. -/
def fsC5 : FS :=
  [("claude-context-usage-s1.json", FileContent.json emptyBridge),
   ("claude-tool-counter-s1", FileContent.text "3"),
   ("claude-context-usage-s2.json", FileContent.json emptyBridge),
   ("claude-tool-counter-s2", FileContent.text "7"),
   ("unrelated.txt", FileContent.text "keep")]

/-! Shared lemmas about the file-system model and the path convention. -/

theorem str_ext {s t : String} (h : s.data = t.data) : s = t :=
  congrArg String.mk h

theorem append_ne_empty_left (a b : String) (h : a ≠ "") : a ++ b ≠ "" := by
  intro hc
  apply h
  have hd := congrArg String.data hc
  rw [String.data_append] at hd
  exact str_ext (List.append_eq_nil.mp hd).1

theorem fsRead_filter_keep (p : String × FileContent → Bool) (n : String)
    (h : ∀ c, p (n, c) = true) :
    ∀ fs : FS, fsRead (List.filter p fs) n = fsRead fs n := by
  intro fs
  induction fs with
  | nil => rfl
  | cons e rest ih =>
    obtain ⟨m, c⟩ := e
    by_cases hm : m = n
    · subst hm
      rw [List.filter_cons, h c]
      simp [fsRead]
    · rw [List.filter_cons]
      cases hp : p (m, c) with
      | true => simp [fsRead, hm, ih]
      | false => simp [fsRead, hm, ih]

theorem fsRead_filter_drop (p : String × FileContent → Bool) (n : String)
    (h : ∀ c, p (n, c) = false) :
    ∀ fs : FS, fsRead (List.filter p fs) n = none := by
  intro fs
  induction fs with
  | nil => rfl
  | cons e rest ih =>
    obtain ⟨m, c⟩ := e
    by_cases hm : m = n
    · subst hm
      rw [List.filter_cons, h c]
      exact ih
    · rw [List.filter_cons]
      cases hp : p (m, c) with
      | true => simp [fsRead, hm, ih]
      | false => exact ih

theorem fsRead_write_self (fs : FS) (n : String) (c : FileContent) :
    fsRead (fsWrite fs n c) n = some c := by
  simp [fsWrite, fsRead]

theorem fsRead_write_ne (fs : FS) (m n : String) (c : FileContent) (h : m ≠ n) :
    fsRead (fsWrite fs m c) n = fsRead fs n := by
  unfold fsWrite
  rw [show fsRead ((m, c) :: List.filter (fun e => e.1 != m) fs) n
        = if m = n then some c else fsRead (List.filter (fun e => e.1 != m) fs) n from rfl]
  rw [if_neg h]
  exact fsRead_filter_keep _ n (fun _ => by simp [bne_iff_ne]; exact fun hnm => h hnm.symm) fs

theorem fsRead_delete_self (fs : FS) (n : String) :
    fsRead (fsDelete fs n) n = none :=
  fsRead_filter_drop _ n (fun _ => by simp) fs

theorem fsRead_delete_ne (fs : FS) (m n : String) (h : m ≠ n) :
    fsRead (fsDelete fs m) n = fsRead fs n :=
  fsRead_filter_keep _ n (fun _ => by simp [bne_iff_ne]; exact fun hnm => h hnm.symm) fs

theorem fsRead_tryDelete_ne (fs : FS) (ok : String → Bool) (m n : String) (h : m ≠ n) :
    fsRead (fsTryDelete fs ok m) n = fsRead fs n := by
  unfold fsTryDelete
  cases ok m with
  | true => simp [fsRead_delete_ne fs m n h]
  | false => simp

theorem bridgeName_ne_counterName (a b : String) :
    bridgeFileName a ≠ counterFileName b := by
  intro h
  have hd := congrArg String.data h
  unfold bridgeFileName counterFileName at hd
  rw [String.data_append, String.data_append, String.data_append,
      List.append_assoc] at hd
  have h7 := congrArg (fun l => l[7]?) hd
  simp only at h7
  rw [List.getElem?_append_left (by decide),
      List.getElem?_append_left (by decide)] at h7
  exact absurd h7 (by decide)

theorem bridgeFileName_inj {a b : String} (h : bridgeFileName a = bridgeFileName b) :
    a = b := by
  have hd := congrArg String.data h
  unfold bridgeFileName at hd
  rw [String.data_append, String.data_append, String.data_append, String.data_append] at hd
  exact str_ext (List.append_cancel_left (List.append_cancel_right hd))

theorem counterFileName_inj {a b : String} (h : counterFileName a = counterFileName b) :
    a = b := by
  have hd := congrArg String.data h
  unfold counterFileName at hd
  rw [String.data_append, String.data_append] at hd
  exact str_ext (List.append_cancel_left hd)

theorem tmod_five_eq_zero_iff (c : Int) : c.tmod EVERY_N = 0 ↔ EVERY_N ∣ c := by
  constructor
  · intro h
    exact Int.dvd_of_tmod_eq_zero h
  · intro h
    exact Int.tmod_eq_zero_of_dvd h

/-! Reduction lemmas exposing each component's behaviour per branch. -/

theorem buildContextMessage_json (sid : String) (fs : FS) (d : BridgeData)
    (h0 : ¬sid = "")
    (h1 : fsRead fs (bridgeFileName sid) = some (FileContent.json d)) :
    buildContextMessage sid fs =
      ("[CONTEXT " ++ readerSeverity (jsRound (d.used_pct.getD 0)) ++ "] ")
        ++ (toString (jsRound (d.used_pct.getD 0)) ++ "% used ("
             ++ toString (jsRound (d.remaining_pct.getD 100)) ++ "% free) of "
             ++ toString (jsRound (divByThousand (d.window_size.getD 200000)))
             ++ "k window | ")
        ++ ("~" ++ fmtQ (d.input_tokens.getD 0) ++ " in / ~"
             ++ fmtQ (d.output_tokens.getD 0) ++ " out") := by
  unfold buildContextMessage
  rw [if_neg h0, h1]

theorem runCounter_fs (e : ToolEvent) (fs : FS) :
    (runCounter (some e) fs).fs =
      fsWrite fs (counterFileName (orFalsy e.session_id "default"))
        (FileContent.text
          (toString (readCounterValue fs (counterFileName (orFalsy e.session_id "default")) + 1))) := by
  unfold runCounter
  simp only []
  split
  · rfl
  · split <;> rfl

theorem runCounter_silent (e : ToolEvent) (fs : FS)
    (h : (readCounterValue fs (counterFileName (orFalsy e.session_id "default")) + 1).tmod EVERY_N ≠ 0) :
    (runCounter (some e) fs).output = none := by
  unfold runCounter
  simp only [if_pos h]

theorem runCounter_no_record (e : ToolEvent) (fs : FS)
    (h : ¬(readCounterValue fs (counterFileName (orFalsy e.session_id "default")) + 1).tmod EVERY_N ≠ 0)
    (hb : fsRead fs (bridgeFileName (orFalsy e.session_id "default")) = none) :
    (runCounter (some e) fs).output = none := by
  unfold runCounter
  simp only [if_neg h]
  rw [fsRead_write_ne fs _ _ _
        (fun hc => bridgeName_ne_counterName _ _ hc.symm), hb]

theorem runCounter_with_record (e : ToolEvent) (fs : FS) (d : BridgeData)
    (h : ¬(readCounterValue fs (counterFileName (orFalsy e.session_id "default")) + 1).tmod EVERY_N ≠ 0)
    (hb : fsRead fs (bridgeFileName (orFalsy e.session_id "default")) = some (FileContent.json d)) :
    (runCounter (some e) fs).output =
      some
        (if counterAdvice (jsRound (d.used_pct.getD 0)) ≠ "" then
          ((counterIcon (jsRound (d.used_pct.getD 0)) ++ " Context checkpoint (#"
            ++ toString (readCounterValue fs (counterFileName (orFalsy e.session_id "default")) + 1)
            ++ ", after " ++ orFalsy e.tool_name "unknown" ++ "): ")
            ++ (toString (jsRound (d.used_pct.getD 0)) ++ "% used, "
                 ++ toString (jsRound (d.remaining_pct.getD 100)) ++ "% free of "
                 ++ toString (jsRound (divByThousand (d.window_size.getD 200000))) ++ "k"))
            ++ ". " ++ counterAdvice (jsRound (d.used_pct.getD 0))
        else
          (counterIcon (jsRound (d.used_pct.getD 0)) ++ " Context checkpoint (#"
            ++ toString (readCounterValue fs (counterFileName (orFalsy e.session_id "default")) + 1)
            ++ ", after " ++ orFalsy e.tool_name "unknown" ++ "): ")
            ++ (toString (jsRound (d.used_pct.getD 0)) ++ "% used, "
                 ++ toString (jsRound (d.remaining_pct.getD 100)) ++ "% free of "
                 ++ toString (jsRound (divByThousand (d.window_size.getD 200000))) ++ "k")) := by
  unfold runCounter
  simp only [if_neg h]
  rw [fsRead_write_ne fs _ _ _
        (fun hc => bridgeName_ne_counterName _ _ hc.symm), hb]

theorem writeBridgeFile_frame (e : StatusEvent) (now : String) (fs : FS) (k : String)
    (hsid : e.session_id = some k) (hne : ¬k = "") (n : String)
    (hn : bridgeFileName k ≠ n) :
    fsRead (writeBridgeFile e now fs) n = fsRead fs n := by
  unfold writeBridgeFile
  rw [hsid]
  simp only [if_neg hne]
  exact fsRead_write_ne fs _ n _ hn

/-! Claims. -/

/-- C1: end-to-end scenario — on the event with session `s1`, usage 42/58,
window 200000, tokens 84000/12000, model `Opus` and cost 0.47 (the rational
47/100), the Snapshot Writer persists a record with `used_pct = 42`,
`window_size = 200000`, `model = "Opus"`, `cost = 0.47`, and a subsequent
Snapshot Reader invocation for `s1` returns a message beginning
`[CONTEXT MODERATE]` and containing `42% used (58% free) of 200k window`
(the equality below exhibits the full message around that substring). -/
theorem claim_C1_scenario :
    (∃ d : BridgeData,
      fsRead (runStatusline (some c1Event) "t0" "" []).fs (bridgeFileName "s1")
          = some (FileContent.json d)
        ∧ d.used_pct = some 42
        ∧ d.window_size = some 200000
        ∧ d.model = some "Opus"
        ∧ d.cost_usd = some (mkRat 47 100))
    ∧ runPromptReader (some ⟨some "s1"⟩) (runStatusline (some c1Event) "t0" "" []).fs
        = "[CONTEXT MODERATE] " ++ "42% used (58% free) of 200k window"
            ++ " | ~84000 in / ~12000 out" := by
  refine ⟨⟨⟨some "s1", some 42, some 58, some 200000, some 84000, some 12000,
            some "Opus", some (mkRat 47 100), some "t0"⟩,
           by decide, by decide, by decide, by decide, by decide⟩, by decide⟩

/-- C9: round-trip with rounding — writing `used_pct = 42` and reading back
yields a message containing `42%`; writing `used_pct = 79.6` (the rational
398/5) yields a message showing `80%`, because the Reader applies
`Math.round` (which sends 79.6 to 80) rather than truncation (which would
give 79). -/
theorem claim_C9_roundtrip :
    (∃ pre post,
      runPromptReader (some ⟨some "s1"⟩) (runStatusline (some ev42) "t0" "" []).fs
        = pre ++ "42%" ++ post)
    ∧ (∃ pre post,
      runPromptReader (some ⟨some "s1"⟩) (runStatusline (some ev796) "t0" "" []).fs
        = pre ++ "80%" ++ post)
    ∧ jsRound (mkRat 398 5) = 80 := by
  refine ⟨⟨"[CONTEXT MODERATE] ",
           " used (58% free) of 200k window | ~0 in / ~0 out", by decide⟩,
          ⟨"[CONTEXT CRITICAL — suggest /compact now] ",
           " used (20% free) of 200k window | ~0 in / ~0 out", by decide⟩,
          by decide⟩

/-- C4 counterexample: malformed input is not treated as an empty event by
every component.  The Event Counter exits immediately on unparseable stdin
without incrementing anything, whereas on the empty event `{}` it
increments and persists the `default` counter — so the two runs leave
observably different states from the same start. -/
theorem claim_C4_counterexample :
    fsRead (runCounter none []).fs (counterFileName "default")
      ≠ fsRead (runCounter (some ⟨none, none⟩) []).fs (counterFileName "default") := by
  decide

/-- C4 amended: no component ever crashes or exits non-zero on malformed
input (each run function below is total and models a clean exit-0); the
Reader and both Reaper variants do treat malformed input exactly like an
empty event, but the Counter exits at once leaving the state untouched and
emitting nothing, and the Writer prints a fixed fallback status line
without performing its normal processing. -/
theorem claim_C4_amended :
    (∀ fs : FS, runPromptReader none fs = runPromptReader (some ⟨none⟩) fs)
    ∧ (∀ (ok : String → Bool) (fs : FS),
        runCleanupJs none ok fs = runCleanupJs (some ⟨none⟩) ok fs)
    ∧ (∀ (ok : String → Bool) (fs : FS),
        runCleanupCjs none ok fs = runCleanupCjs (some ⟨none⟩) ok fs)
    ∧ (∀ fs : FS, (runCounter none fs).fs = fs ∧ (runCounter none fs).output = none)
    ∧ (∀ (now branch : String) (fs : FS),
        (runStatusline none now branch fs).fs = fs
        ∧ (runStatusline none now branch fs).stdout
            = "\x1b[38;5;250m\x1b[2mClaude\x1b[0m") :=
  ⟨fun _ => rfl, fun _ _ => rfl, fun _ _ => rfl,
   fun _ => ⟨rfl, rfl⟩, fun _ _ _ => ⟨rfl, rfl⟩⟩

/-- C2: on every invocation with parseable input the Event Counter reads
the persisted counter for the session key (0 when absent or unparseable),
increments it by exactly 1 and persists the new value unconditionally;
with `EVERY_N = 5` it emits a notification exactly on the calls whose new
counter value is divisible by 5 (`Int.tmod` is the JavaScript `%`; the
final clause ties `tmod = 0` to divisibility), and on such a call with no
Snapshot Record present it emits nothing and completes cleanly. -/
theorem claim_C2_counter (e : ToolEvent) (fs : FS) (sid : String) (c : Int)
    (hsid : sid = orFalsy e.session_id "default")
    (hc : c = readCounterValue fs (counterFileName sid) + 1) :
    fsRead (runCounter (some e) fs).fs (counterFileName sid)
        = some (FileContent.text (toString c))
    ∧ (c.tmod EVERY_N ≠ 0 → (runCounter (some e) fs).output = none)
    ∧ (c.tmod EVERY_N = 0 → fsRead fs (bridgeFileName sid) = none →
        (runCounter (some e) fs).output = none)
    ∧ (∀ d : BridgeData, c.tmod EVERY_N = 0 →
        fsRead fs (bridgeFileName sid) = some (FileContent.json d) →
        (runCounter (some e) fs).output ≠ none)
    ∧ (c.tmod EVERY_N = 0 ↔ EVERY_N ∣ c) := by
  subst hsid
  subst hc
  refine ⟨?_, ?_, ?_, ?_, tmod_five_eq_zero_iff _⟩
  · rw [runCounter_fs]
    exact fsRead_write_self _ _ _
  · intro h
    exact runCounter_silent e fs h
  · intro h hb
    exact runCounter_no_record e fs (fun hh => hh h) hb
  · intro d h hb
    rw [runCounter_with_record e fs d (fun hh => hh h) hb]
    simp

/-- Witness for C2: with the counter at 4 and a bridge record present, the
5th call for `s1` emits; with an unparseable counter file the tally
restarts at 0, so the next call is the 1st and is silent. -/
theorem claim_C2_counter_witness :
    (runCounter (some ⟨some "s1", some "Bash"⟩) fsC2).output ≠ none
    ∧ (runCounter (some ⟨some "s1", some "Bash"⟩)
        [("claude-tool-counter-s1", FileContent.text "abc")]).output = none :=
  ⟨(claim_C2_counter ⟨some "s1", some "Bash"⟩ fsC2 "s1" 5 (by decide)
      (by decide)).2.2.2.1 emptyBridge (by decide) (by decide),
   (claim_C2_counter ⟨some "s1", some "Bash"⟩
      [("claude-tool-counter-s1", FileContent.text "abc")] "s1" 1 (by decide)
      (by decide)).2.1 (by decide)⟩

/-- Helper for prefix decompositions: when the head chunk `A` equals the
claimed prefix `P` followed by one space, the whole message splits after
`P`. -/
theorem exists_head_split (P A rest : String) (h : A = P ++ " ") :
    ∃ r, A ++ rest = P ++ r :=
  ⟨" " ++ rest, by rw [h, String.append_assoc]⟩

/-- C10: parseable input lacking a `session_id` does not make the Event
Counter no-op — whatever the `tool_name`, it substitutes the literal key
`default`, so the run is identical to one with `session_id = "default"`,
it reads, increments and persists the shared file
`claude-tool-counter-default` touching nothing else, on a sampling tick it
consults the bridge file `claude-context-usage-default.json`, and when the
`tool_name` is also absent the event label defaults to `unknown` (the run
is identical to one with both defaults supplied explicitly). -/
theorem claim_C10_default_key (e : ToolEvent) (fs : FS) (c : Int)
    (h1 : e.session_id = none)
    (hc : c = readCounterValue fs "claude-tool-counter-default" + 1) :
    runCounter (some e) fs = runCounter (some ⟨some "default", e.tool_name⟩) fs
    ∧ counterFileName "default" = "claude-tool-counter-default"
    ∧ bridgeFileName "default" = "claude-context-usage-default.json"
    ∧ fsRead (runCounter (some e) fs).fs "claude-tool-counter-default"
        = some (FileContent.text (toString c))
    ∧ (∀ n, n ≠ "claude-tool-counter-default" →
        fsRead (runCounter (some e) fs).fs n = fsRead fs n)
    ∧ (∀ d : BridgeData, c.tmod EVERY_N = 0 →
        fsRead fs "claude-context-usage-default.json" = some (FileContent.json d) →
        (runCounter (some e) fs).output ≠ none)
    ∧ (e.tool_name = none →
        runCounter (some e) fs = runCounter (some ⟨some "default", some "unknown"⟩) fs) := by
  obtain ⟨s, t⟩ := e
  simp only at h1
  subst h1
  subst hc
  have hkey : counterFileName (orFalsy (⟨none, t⟩ : ToolEvent).session_id "default")
      = "claude-tool-counter-default" := rfl
  have hbkey : bridgeFileName (orFalsy (⟨none, t⟩ : ToolEvent).session_id "default")
      = "claude-context-usage-default.json" := rfl
  refine ⟨?_, rfl, rfl, ?_, ?_, ?_, ?_⟩
  · rfl
  · rw [runCounter_fs, hkey]
    exact fsRead_write_self _ _ _
  · intro n hne
    rw [runCounter_fs, hkey]
    exact fsRead_write_ne fs _ n _ (fun h => hne h.symm)
  · intro d h hb
    have h' : (readCounterValue fs
        (counterFileName (orFalsy (⟨none, t⟩ : ToolEvent).session_id "default"))
          + 1).tmod EVERY_N = 0 := by
      rw [hkey]; exact h
    have hb' : fsRead fs
        (bridgeFileName (orFalsy (⟨none, t⟩ : ToolEvent).session_id "default"))
          = some (FileContent.json d) := by
      rw [hbkey]; exact hb
    rw [runCounter_with_record ⟨none, t⟩ fs d (fun hh => hh h') hb']
    simp
  · intro h2
    simp only at h2
    subst h2
    rfl

/-- Witness for C10: from an empty directory, an event with neither field
leaves the counter file `claude-tool-counter-default` holding `1`. -/
theorem claim_C10_default_key_witness :
    fsRead (runCounter (some ⟨none, none⟩) []).fs "claude-tool-counter-default"
      = some (FileContent.text "1") :=
  (claim_C10_default_key ⟨none, none⟩ [] 1 rfl (by decide)).2.2.2.1

/-- C3: the Snapshot Reader's tiers are closed-above at the fixed
thresholds on the rounded used percentage — 80 gives the CRITICAL tier
(whose text carries the `/compact` remediation suggestion), 79 and 60 give
WARNING (whose text carries the brevity directive), 59 and 40 give MODERATE
with no directive, and 39 gives the nominal OK tier. -/
theorem claim_C3_thresholds (sid : String) (fs : FS) (d : BridgeData)
    (h0 : ¬sid = "")
    (h1 : fsRead fs (bridgeFileName sid) = some (FileContent.json d)) :
    (jsRound (d.used_pct.getD 0) = 80 →
      ∃ r, buildContextMessage sid fs
        = "[CONTEXT CRITICAL — suggest /compact now]" ++ r)
    ∧ ((jsRound (d.used_pct.getD 0) = 79 ∨ jsRound (d.used_pct.getD 0) = 60) →
      ∃ r, buildContextMessage sid fs
        = "[CONTEXT WARNING — be concise, avoid verbose output]" ++ r)
    ∧ ((jsRound (d.used_pct.getD 0) = 59 ∨ jsRound (d.used_pct.getD 0) = 40) →
      ∃ r, buildContextMessage sid fs = "[CONTEXT MODERATE]" ++ r)
    ∧ (jsRound (d.used_pct.getD 0) = 39 →
      ∃ r, buildContextMessage sid fs = "[CONTEXT OK]" ++ r) := by
  refine ⟨?_, ?_, ?_, ?_⟩
  · intro hp
    rw [buildContextMessage_json sid fs d h0 h1, hp, String.append_assoc]
    exact exists_head_split _ _ _ (by decide)
  · intro hp
    rcases hp with hp | hp <;>
      rw [buildContextMessage_json sid fs d h0 h1, hp, String.append_assoc] <;>
      exact exists_head_split _ _ _ (by decide)
  · intro hp
    rcases hp with hp | hp <;>
      rw [buildContextMessage_json sid fs d h0 h1, hp, String.append_assoc] <;>
      exact exists_head_split _ _ _ (by decide)
  · intro hp
    rw [buildContextMessage_json sid fs d h0 h1, hp, String.append_assoc]
    exact exists_head_split _ _ _ (by decide)

/-- Witness for C3: a stored usage of exactly 80 yields the CRITICAL
message. -/
theorem claim_C3_thresholds_witness :
    ∃ r, buildContextMessage "s1" fsC3
      = "[CONTEXT CRITICAL — suggest /compact now]" ++ r :=
  (claim_C3_thresholds "s1" fsC3 bridge80 (by decide) (by decide)).1 (by decide)

/-- C6 counterexample: the Event Counter does not classify into the same
threshold bands as the Snapshot Reader.  At rounded percentages 40 and 39
the Reader chooses different tiers (MODERATE versus OK) while the Counter
chooses the same icon and the same (empty) advice — the Counter has no band
boundary at 40, so its bands are strictly coarser than the Reader's. -/
theorem claim_C6_counterexample :
    readerSeverity 40 ≠ readerSeverity 39
    ∧ counterIcon 40 = counterIcon 39
    ∧ counterAdvice 40 = counterAdvice 39 := by
  decide

/-- C6 amended: the Counter shares the Reader's 80 and 60 thresholds but
collapses the Reader's two lowest bands: its icon is 🔴 exactly when the
Reader's tier is CRITICAL, 🟡 exactly when WARNING, and 🟢 exactly when the
Reader would say MODERATE or OK; below 60 (in particular below the
Reader's lowest threshold 40) no remediation text is appended. -/
theorem claim_C6_amended (pct : Int) :
    (counterIcon pct = "🔴" ↔ readerSeverity pct = "CRITICAL — suggest /compact now")
    ∧ (counterIcon pct = "🟡" ↔ readerSeverity pct = "WARNING — be concise, avoid verbose output")
    ∧ (counterIcon pct = "🟢" ↔
        (readerSeverity pct = "MODERATE" ∨ readerSeverity pct = "OK"))
    ∧ (pct < 60 → counterAdvice pct = "") := by
  unfold counterIcon readerSeverity counterAdvice
  by_cases h80 : pct ≥ 80 <;> by_cases h60 : pct ≥ 60 <;> by_cases h40 : pct ≥ 40 <;>
    simp [h80, h60, h40] <;> try omega

/-- Witness for C6 amended: at a rounded percentage of 50 no advice text is
appended. -/
theorem claim_C6_amended_witness : counterAdvice 50 = "" :=
  (claim_C6_amended 50).2.2.2 (by decide)

/-- Keyed reduction of the `.js` Reaper: with a nonempty session id it is
the two try-deletions. -/
theorem runCleanupJs_keyed (sid : String) (ok : String → Bool) (fs : FS) (h : ¬sid = "") :
    runCleanupJs (some ⟨some sid⟩) ok fs
      = fsTryDelete (fsTryDelete fs ok (bridgeFileName sid)) ok (counterFileName sid) := by
  unfold runCleanupJs
  simp only [orFalsy, if_neg h]

/-- Keyed reduction of the `.cjs` Reaper: identical to the `.js` one. -/
theorem runCleanupCjs_keyed (sid : String) (ok : String → Bool) (fs : FS) (h : ¬sid = "") :
    runCleanupCjs (some ⟨some sid⟩) ok fs
      = fsTryDelete (fsTryDelete fs ok (bridgeFileName sid)) ok (counterFileName sid) := by
  unfold runCleanupCjs
  simp only [orFalsy, if_neg h]

/-- Sweep reduction of the `.js` Reaper: with no session id it filters out
every matching, deletable entry. -/
theorem runCleanupJs_sweep (ok : String → Bool) (fs : FS) :
    runCleanupJs (some ⟨none⟩) ok fs
      = fs.filter (fun e => !(matchesRecordName e.1 && ok e.1)) := rfl

/-- C5: the Session Reaper with a key deletes exactly that key's two
records (deletion of a non-existent file is modelled as a caught no-op and
is not an error) and leaves every other file — in particular every other
key's records — untouched, and behaves identically in both script
variants; with no key (the fallback sweep, present in the `.js` variant)
it deletes every file matching either record-name convention whose deletion
succeeds and leaves unrelated files untouched,
a single deletion failure never aborting the rest of the sweep (the final
clause holds for every `ok`, however many other deletions fail). -/
theorem claim_C5_reaper (ok : String → Bool) (fs : FS) (sid : String) :
    (¬sid = "" →
      (∀ n, n ≠ bridgeFileName sid → n ≠ counterFileName sid →
        fsRead (runCleanupJs (some ⟨some sid⟩) ok fs) n = fsRead fs n)
      ∧ (∀ sid2, sid2 ≠ sid →
          fsRead (runCleanupJs (some ⟨some sid⟩) ok fs) (bridgeFileName sid2)
              = fsRead fs (bridgeFileName sid2)
          ∧ fsRead (runCleanupJs (some ⟨some sid⟩) ok fs) (counterFileName sid2)
              = fsRead fs (counterFileName sid2))
      ∧ ((∀ n, ok n = true) →
          fsRead (runCleanupJs (some ⟨some sid⟩) ok fs) (bridgeFileName sid) = none
          ∧ fsRead (runCleanupJs (some ⟨some sid⟩) ok fs) (counterFileName sid) = none)
      ∧ runCleanupCjs (some ⟨some sid⟩) ok fs = runCleanupJs (some ⟨some sid⟩) ok fs)
    ∧ (∀ n, matchesRecordName n = false →
        fsRead (runCleanupJs (some ⟨none⟩) ok fs) n = fsRead fs n)
    ∧ (∀ n, matchesRecordName n = true → ok n = true →
        fsRead (runCleanupJs (some ⟨none⟩) ok fs) n = none) := by
  refine ⟨?_, ?_, ?_⟩
  · intro hsid
    have hJ := runCleanupJs_keyed sid ok fs hsid
    refine ⟨?_, ?_, ?_, ?_⟩
    · intro n hn1 hn2
      rw [hJ, fsRead_tryDelete_ne _ _ _ _ (fun h => hn2 h.symm),
          fsRead_tryDelete_ne _ _ _ _ (fun h => hn1 h.symm)]
    · intro sid2 hs2
      constructor
      · rw [hJ,
            fsRead_tryDelete_ne _ _ _ _ (fun h => bridgeName_ne_counterName sid2 sid h.symm),
            fsRead_tryDelete_ne _ _ _ _ (fun h => hs2 (bridgeFileName_inj h.symm))]
      · rw [hJ,
            fsRead_tryDelete_ne _ _ _ _ (fun h => hs2 (counterFileName_inj h.symm)),
            fsRead_tryDelete_ne _ _ _ _ (bridgeName_ne_counterName sid sid2)]
    · intro hok
      constructor
      · rw [hJ, fsRead_tryDelete_ne _ _ _ _ (fun h => bridgeName_ne_counterName sid sid h.symm)]
        simp [fsTryDelete, hok, fsRead_delete_self]
      · rw [hJ]
        simp [fsTryDelete, hok, fsRead_delete_self]
    · exact (runCleanupCjs_keyed sid ok fs hsid).trans hJ.symm
  · intro n hm
    rw [runCleanupJs_sweep]
    exact fsRead_filter_keep _ n (fun c => by simp [hm]) fs
  · intro n hm hok1
    rw [runCleanupJs_sweep]
    exact fsRead_filter_drop _ n (fun c => by simp [hm, hok1]) fs

/-- Witness for C5: with every deletion succeeding, cleaning up `s1`
removes its bridge record but leaves `s2`'s; a key-less sweep keeps
`unrelated.txt` and removes `s2`'s counter record. -/
theorem claim_C5_reaper_witness :
    fsRead (runCleanupJs (some ⟨some "s1"⟩) (fun _ => true) fsC5) (bridgeFileName "s1") = none
    ∧ fsRead (runCleanupJs (some ⟨some "s1"⟩) (fun _ => true) fsC5) (bridgeFileName "s2")
        = fsRead fsC5 (bridgeFileName "s2")
    ∧ fsRead (runCleanupJs (some ⟨none⟩) (fun _ => true) fsC5) "unrelated.txt"
        = fsRead fsC5 "unrelated.txt"
    ∧ fsRead (runCleanupJs (some ⟨none⟩) (fun _ => true) fsC5) "claude-tool-counter-s2" = none :=
  ⟨(((claim_C5_reaper (fun _ => true) fsC5 "s1").1 (by decide)).2.2.1 (fun _ => rfl)).1,
   (((claim_C5_reaper (fun _ => true) fsC5 "s1").1 (by decide)).2.1 "s2" (by decide)).1,
   (claim_C5_reaper (fun _ => true) fsC5 "s1").2.1 "unrelated.txt" (by decide),
   (claim_C5_reaper (fun _ => true) fsC5 "s1").2.2 "claude-tool-counter-s2" (by decide) rfl⟩

/-- C7: namespace isolation — the key-to-path mappings are injective
(distinct keys give distinct paths; determinism is immediate since the
mappings are functions), and a Snapshot Writer or Event Counter invocation
for key `k1` leaves both records readable for any other key `k2`
unchanged. -/
theorem claim_C7_isolation (k1 k2 : String) (h1 : ¬k1 = "") (h2 : k1 ≠ k2) :
    (bridgeFileName k1 ≠ bridgeFileName k2 ∧ counterFileName k1 ≠ counterFileName k2)
    ∧ (∀ (e : StatusEvent) (now branch : String) (fs : FS), e.session_id = some k1 →
        fsRead (runStatusline (some e) now branch fs).fs (bridgeFileName k2)
            = fsRead fs (bridgeFileName k2)
        ∧ fsRead (runStatusline (some e) now branch fs).fs (counterFileName k2)
            = fsRead fs (counterFileName k2))
    ∧ (∀ (e : ToolEvent) (fs : FS), e.session_id = some k1 →
        fsRead (runCounter (some e) fs).fs (bridgeFileName k2)
            = fsRead fs (bridgeFileName k2)
        ∧ fsRead (runCounter (some e) fs).fs (counterFileName k2)
            = fsRead fs (counterFileName k2)) := by
  refine ⟨⟨fun h => h2 (bridgeFileName_inj h), fun h => h2 (counterFileName_inj h)⟩, ?_, ?_⟩
  · intro e now branch fs hsid
    constructor
    · exact writeBridgeFile_frame e now fs k1 hsid h1 _ (fun h => h2 (bridgeFileName_inj h))
    · exact writeBridgeFile_frame e now fs k1 hsid h1 _ (bridgeName_ne_counterName k1 k2)
  · intro e fs hsid
    have hkey : orFalsy e.session_id "default" = k1 := by
      rw [hsid]
      simp [orFalsy, h1]
    constructor
    · rw [runCounter_fs, hkey]
      exact fsRead_write_ne fs _ _ _ (fun h => bridgeName_ne_counterName k2 k1 h.symm)
    · rw [runCounter_fs, hkey]
      exact fsRead_write_ne fs _ _ _ (fun h => h2 (counterFileName_inj h))

/-- Witness for C7: keys `s1` and `s2` get distinct bridge paths, and an
`s1` Counter run leaves `s2`'s counter record unchanged. -/
theorem claim_C7_isolation_witness :
    bridgeFileName "s1" ≠ bridgeFileName "s2"
    ∧ fsRead (runCounter (some ⟨some "s1", none⟩) fsC5).fs (counterFileName "s2")
        = fsRead fsC5 (counterFileName "s2") :=
  ⟨(claim_C7_isolation "s1" "s2" (by decide) (by decide)).1.1,
   ((claim_C7_isolation "s1" "s2" (by decide) (by decide)).2.2 ⟨some "s1", none⟩ fsC5 rfl).2⟩

/-- Nonemptiness of a joined list whose members are all nonempty. -/
theorem joinSep_all_ne_empty (sep : String) :
    ∀ l : List String, l ≠ [] → (∀ y ∈ l, y ≠ "") → joinSep sep l ≠ "" := by
  intro l
  induction l with
  | nil => intro h _; exact absurd rfl h
  | cons x xs ih =>
    intro _ hall
    cases xs with
    | nil =>
      show x ≠ ""
      exact hall x (by simp)
    | cons y ys =>
      show x ++ sep ++ joinSep sep (y :: ys) ≠ ""
      exact append_ne_empty_left _ _ (append_ne_empty_left _ _ (hall x (by simp)))

/-- C8: a Snapshot Writer invocation whose event has no `session_id`
(absent or empty — both falsy), whatever its other fields, persists
nothing: the namespace is returned entirely unchanged, no error is
signalled (the run is total), and the status line is still rendered from
the in-memory event and is a nonempty string. -/
theorem claim_C8_writer_no_key (e : StatusEvent) (now branch : String) (fs : FS)
    (h : e.session_id = none ∨ e.session_id = some "") :
    (runStatusline (some e) now branch fs).fs = fs
    ∧ (runStatusline (some e) now branch fs).stdout = renderStatusLine e branch
    ∧ renderStatusLine e branch ≠ "" := by
  refine ⟨?_, rfl, ?_⟩
  · show writeBridgeFile e now fs = fs
    unfold writeBridgeFile
    rcases h with h | h
    · rw [h]
    · rw [h]
      simp
  · unfold renderStatusLine
    apply joinSep_all_ne_empty
    · intro hnil
      simp [List.append_eq_nil] at hnil
    · intro y hy
      simp only [List.mem_append] at hy
      rcases hy with ((((hy | hy) | hy) | hy) | hy)
      · split at hy
        · simp at hy
          rcases hy with ⟨-, rfl⟩
          repeat apply append_ne_empty_left
          decide
        · simp at hy
      · simp at hy
        subst hy
        repeat apply append_ne_empty_left
        decide
      · split at hy
        · simp at hy
          subst hy
          repeat apply append_ne_empty_left
          decide
        · simp at hy
      · simp at hy
        subst hy
        repeat apply append_ne_empty_left
        decide
      · simp at hy
        subst hy
        repeat apply append_ne_empty_left
        decide

/-- Witness for C8: an event with usage data but no `session_id` leaves an
empty namespace empty. -/
theorem claim_C8_writer_no_key_witness :
    (runStatusline (some ⟨none, some ⟨some 42, none, none, none, none⟩, none, none, none⟩)
        "t0" "" []).fs = [] :=
  (claim_C8_writer_no_key ⟨none, some ⟨some 42, none, none, none, none⟩, none, none, none⟩
      "t0" "" [] (Or.inl rfl)).1
